import Mathlib

/-!
Shallow embedding of the layout-to-struct-definition core of `wgsl-bindgen`
(files `src/wgsl_type.rs` and `src/quote_gen/rust_struct_builder.rs`),
together with theorems settling the specification claims about it.

Rust panics are modelled as `Except.error`; token streams that the code
emits symbolically (padding size expressions, derive identifiers, repr
attributes, layout assertions) are modelled as structured data carrying
exactly the information the code puts into the tokens.
-/

/-- The serialization strategies selectable in the options
(`WgslTypeSerializeStrategy` in the Rust crate). -/
inductive WgslTypeSerializeStrategy
  | Bytemuck
  | Encase
deriving DecidableEq

/-- The subset of `WgslBindgenOption` consumed by the struct builder:
the serialization strategy and the serde flag. -/
structure WgslBindgenOption where
  serialization_strategy : WgslTypeSerializeStrategy
  derive_serde : Bool
deriving DecidableEq

/-- The `WgslType` enum from `src/wgsl_type.rs`: the fixed catalog of WGSL
vector and matrix types. -/
inductive WgslType
  | Vec2i | Vec3i | Vec4i
  | Vec2u | Vec3u | Vec4u
  | Vec2f | Vec3f | Vec4f
  | Vec2h | Vec3h | Vec4h
  | Mat2x2f | Mat2x3f | Mat2x4f
  | Mat3x2f | Mat3x3f | Mat3x4f
  | Mat4x2f | Mat4x3f | Mat4x4f
  | Mat2x2h | Mat2x3h | Mat2x4h
  | Mat3x2h | Mat3x3h | Mat3x4h
  | Mat4x2h | Mat4x3h | Mat4x4h
deriving DecidableEq

namespace WgslType

/-- The catalog in declaration order, used to express that `WgslType` is a
closed set (every entry appears exactly once). -/
def catalog : List WgslType :=
  [Vec2i, Vec3i, Vec4i, Vec2u, Vec3u, Vec4u, Vec2f, Vec3f, Vec4f,
   Vec2h, Vec3h, Vec4h,
   Mat2x2f, Mat2x3f, Mat2x4f, Mat3x2f, Mat3x3f, Mat3x4f,
   Mat4x2f, Mat4x3f, Mat4x4f,
   Mat2x2h, Mat2x3h, Mat2x4h, Mat3x2h, Mat3x3h, Mat3x4h,
   Mat4x2h, Mat4x3h, Mat4x4h]

/-- `WgslType::alignment_and_size` from `src/wgsl_type.rs`: the constant
(alignment, size) lookup for every catalog entry. -/
def alignment_and_size : WgslType → Nat × Nat
  | Vec2i | Vec2u | Vec2f => (8, 8)
  | Vec2h => (4, 4)
  | Vec3i | Vec3u | Vec3f => (16, 12)
  | Vec3h => (8, 6)
  | Vec4i | Vec4u | Vec4f => (16, 16)
  | Vec4h => (8, 8)
  | Mat2x2f => (8, 16)
  | Mat2x2h => (4, 8)
  | Mat3x2f => (8, 24)
  | Mat3x2h => (4, 12)
  | Mat4x2f => (8, 32)
  | Mat4x2h => (4, 16)
  | Mat2x3f => (16, 32)
  | Mat2x3h => (8, 16)
  | Mat3x3f => (16, 48)
  | Mat3x3h => (8, 24)
  | Mat4x3f => (16, 64)
  | Mat4x3h => (8, 32)
  | Mat2x4f => (16, 32)
  | Mat2x4h => (8, 16)
  | Mat3x4f => (16, 48)
  | Mat3x4h => (8, 24)
  | Mat4x4f => (16, 64)
  | Mat4x4h => (8, 32)

/-- `WgslType::is_vector` from `src/wgsl_type.rs`. -/
def is_vector : WgslType → Bool
  | Vec2i | Vec3i | Vec4i
  | Vec2u | Vec3u | Vec4u
  | Vec2f | Vec3f | Vec4f
  | Vec2h | Vec3h | Vec4h => true
  | _ => false

/-- `WgslType::is_matrix` from `src/wgsl_type.rs`. -/
def is_matrix : WgslType → Bool
  | Mat2x2f | Mat2x3f | Mat2x4f
  | Mat3x2f | Mat3x3f | Mat3x4f
  | Mat4x2f | Mat4x3f | Mat4x4f
  | Mat2x2h | Mat2x3h | Mat2x4h
  | Mat3x2h | Mat3x3h | Mat3x4h
  | Mat4x2h | Mat4x3h | Mat4x4h => true
  | _ => false

end WgslType

/-- The fields of `RustTypeInfo` (declared in the crate's `quote_gen` module,
outside the provided sources) that this core uses: the emitted token text,
the optional byte size (`none` models a runtime-sized array, matching
`rust_type.size.is_none()` in the fold), and the alignment used when the
type is embedded in a sequence. -/
structure RustTypeInfo where
  tokens : String
  size : Option Nat
  alignment : Nat
deriving DecidableEq

/-- Modelled from the spec: `RustTypeInfo::size_after_alignment` is outside
the provided sources; per the spec it is the representation's "size as it
would actually occupy when embedded in a sequence", i.e. the nominal size
rounded up to the representation's alignment, absent for runtime-sized
arrays. -/
def RustTypeInfo.size_after_alignment (t : RustTypeInfo) : Option Nat :=
  t.size.map (fun s => (s + t.alignment - 1) / t.alignment * t.alignment)

/-- A `naga::StructMember` together with the resolved Rust representation
that `rust_type(naga_module, naga_type, options)` (outside the provided
sources) produces for it: name, byte offset, and resolved `RustTypeInfo`. -/
structure StructMember where
  name : Option String
  offset : Nat
  rust_type : RustTypeInfo
deriving DecidableEq

/-- `RustStructMemberEntryPadding`: the synthetic padding field. The emitted
size tokens are `<span literal> - core::mem::size_of::<ty>()`; they are
modelled by the pair of the statically computed span literal and the token
text of the type whose target-side size is subtracted. -/
structure RustStructMemberEntryPadding where
  pad_name : String
  pad_span : Nat
  pad_size_of_ty : String
deriving DecidableEq

/-- `RustStructMemberEntry`: one derived host field. -/
structure RustStructMemberEntry where
  name_ident : String
  naga_member : StructMember
  rust_type : String
  is_rsa : Bool
  padding : Option RustStructMemberEntryPadding
deriving DecidableEq

/-- `NagaToRustStructState`: the fold accumulator (current index and the
entries produced so far). -/
structure NagaToRustStructState where
  index : Nat
  members : List RustStructMemberEntry
deriving DecidableEq

/-- The body of one `create_fold` step for the member at position `idx`:
unwrap the member name (a `panic!` on `None`, modelled as `Except.error`),
abort when a runtime-sized array is not the last member, otherwise compute
the optional padding and produce the member's entry. -/
def memberEntry (naga_members : List StructMember) (layout_size : Nat)
    (is_directly_sharable : Bool) (idx : Nat) (naga_member : StructMember) :
    Except String RustStructMemberEntry :=
  match naga_member.name with
  | none => Except.error "called Option::unwrap on a None value"
  | some name =>
    let rust_type := naga_member.rust_type
    let is_rsa := rust_type.size.isNone
    if is_rsa && idx != naga_members.length - 1 then
      Except.error "Only the last field of a struct can be a runtime-sized array"
    else
      let padding : Option RustStructMemberEntryPadding :=
        if is_rsa || !is_directly_sharable then
          none
        else
          let current_offset := naga_member.offset
          let next_offset :=
            match naga_members.get? (idx + 1) with
            | some m => m.offset
            | none => layout_size
          let pad_name := "_pad_" ++ name
          let required_member_size := next_offset - current_offset
          match rust_type.size_after_alignment with
          | some rust_type_size =>
            if required_member_size == rust_type_size then
              none
            else
              some ⟨pad_name, required_member_size, rust_type.tokens⟩
          | none => some ⟨pad_name, required_member_size, rust_type.tokens⟩
      Except.ok
        { name_ident := name
          naga_member := naga_member
          rust_type := rust_type.tokens
          is_rsa := is_rsa
          padding := padding }

/-- `NagaToRustStructState::create_fold` from
`src/quote_gen/rust_struct_builder.rs`: one fold step — produce the entry
for the member at the accumulator's current index (see `memberEntry`),
advance the index and push the entry. -/
def NagaToRustStructState.create_fold
    (naga_members : List StructMember) (layout_size : Nat)
    (is_directly_sharable : Bool)
    (state : NagaToRustStructState) (naga_member : StructMember) :
    Except String NagaToRustStructState :=
  match memberEntry naga_members layout_size is_directly_sharable
      state.index naga_member with
  | Except.error e => Except.error e
  | Except.ok entry =>
    Except.ok { index := state.index + 1, members := state.members ++ [entry] }

/-- Processing a member list from a given index: the reference recursion the
fold is proved equivalent to. -/
def entriesFrom (naga_members : List StructMember) (layout_size : Nat)
    (is_directly_sharable : Bool) (idx : Nat) :
    List StructMember → Except String (List RustStructMemberEntry)
  | [] => Except.ok []
  | m :: rest =>
    match memberEntry naga_members layout_size is_directly_sharable idx m with
    | Except.error e => Except.error e
    | Except.ok entry =>
      match entriesFrom naga_members layout_size is_directly_sharable (idx + 1) rest with
      | Except.error e => Except.error e
      | Except.ok es => Except.ok (entry :: es)

/-- `RustStructMemberEntry::from_naga`: fold the member list with
`create_fold`, starting from the default state, and return the entries. -/
def RustStructMemberEntry.from_naga (naga_members : List StructMember)
    (layout_size : Nat) (is_directly_sharable : Bool) :
    Except String (List RustStructMemberEntry) :=
  match naga_members.foldlM
      (NagaToRustStructState.create_fold naga_members layout_size is_directly_sharable)
      { index := 0, members := [] } with
  | Except.error e => Except.error e
  | Except.ok state => Except.ok state.members

/-- The gap a member must fill: the next member's offset (or the struct's
total size for the last member) minus the member's own offset, as computed
inside the fold. -/
def requiredMemberSize (naga_members : List StructMember) (layout_size : Nat)
    (i : Nat) (m : StructMember) : Nat :=
  (match naga_members.get? (i + 1) with
   | some n => n.offset
   | none => layout_size) - m.offset

/-- `naga::proc::TypeLayout`: the struct-level layout metadata (total size
and alignment). -/
structure TypeLayout where
  size : Nat
  alignment : Nat
deriving DecidableEq

/-- The derive tokens `build_derives` can push. -/
inductive RustDerive
  | Debug
  | PartialEq
  | Clone
  | Copy
  | EncaseShaderType
  | SerdeSerialize
  | SerdeDeserialize
deriving DecidableEq

/-- `RustStructBuilder`: the per-struct builder (name is the demangled
struct name; `naga_module` is omitted because the embedded operations use it
only for doc-string text). -/
structure RustStructBuilder where
  name : String
  members : List RustStructMemberEntry
  is_host_sharable : Bool
  has_rts_array : Bool
  layout : TypeLayout
  options : WgslBindgenOption
deriving DecidableEq

/-- `RustStructBuilder::is_directly_shareable`. -/
def RustStructBuilder.is_directly_shareable (b : RustStructBuilder) : Bool :=
  (b.options.serialization_strategy == WgslTypeSerializeStrategy.Bytemuck)
    && b.is_host_sharable

/-- `RustStructBuilder::uses_generics_for_rts`. -/
def RustStructBuilder.uses_generics_for_rts (b : RustStructBuilder) : Bool :=
  b.has_rts_array
    && (b.options.serialization_strategy == WgslTypeSerializeStrategy.Bytemuck)

/-- `RustStructBuilder::uses_padding`. -/
def RustStructBuilder.uses_padding (b : RustStructBuilder) : Bool :=
  b.members.any (fun m => m.padding.isSome)

/-- A field initializer inside a generated instantiation block: either a
real field copied from the variable of the same name (`name: self.name` in
`const_into`, shorthand `name` in `new`), or a padding field filled with
`[0; span - size_of::<ty>()]`. -/
inductive FieldInit
  | fromVar (field : String)
  | zeroPad (pad_name : String) (span : Nat) (size_of_ty : String)
deriving DecidableEq

/-- `RustStructMemberEntry::generate_member_instantiate`: `name: other.name`. -/
def RustStructMemberEntry.generate_member_instantiate
    (e : RustStructMemberEntry) : FieldInit :=
  FieldInit.fromVar e.name_ident

/-- `RustStructMemberEntryPadding::generate_member_instantiate`:
`pad_name: [0; pad_size]`. -/
def RustStructMemberEntryPadding.generate_member_instantiate
    (p : RustStructMemberEntryPadding) : FieldInit :=
  FieldInit.zeroPad p.pad_name p.pad_span p.pad_size_of_ty

/-- A concrete field content once the emission target's `size_of` and the
caller-supplied real-field values are fixed: a real value or a byte run. -/
inductive FieldValue
  | value (v : Int)
  | bytes (bs : List Nat)
deriving DecidableEq

/-- Evaluate a field initializer to (target field name, content), given the
emission target's `size_of` for type tokens and the values bound to the
real-field names. -/
def FieldInit.eval (size_of : String → Nat) (env : String → Int) :
    FieldInit → String × FieldValue
  | FieldInit.fromVar n => (n, FieldValue.value (env n))
  | FieldInit.zeroPad pn span ty =>
    (pn, FieldValue.bytes (List.replicate (span - size_of ty) 0))

/-- The alternate Init struct description produced by `build_init_struct`:
its member definitions (name, type; padding fields are not members) and the
assignments its `const_into` conversion performs. -/
structure InitStruct where
  member_defs : List (String × String)
  mem_assignments : List FieldInit
deriving DecidableEq

/-- The constructor produced by `build_fn_new`: one parameter per
non-padding field and the assignment list of its body. -/
structure FnNew where
  params : List (String × String)
  member_assignments : List FieldInit
deriving DecidableEq

/-- `RustStructBuilder::build_init_struct`: empty output unless the struct
is directly shareable and uses padding; otherwise the Init struct with the
real members and the conversion assignments (each real field copied, each
padding field zero-filled). -/
def RustStructBuilder.build_init_struct (b : RustStructBuilder) :
    Option InitStruct :=
  if !b.is_directly_shareable || !b.uses_padding then
    none
  else
    some
      { member_defs := b.members.map (fun e => (e.name_ident, e.rust_type))
        mem_assignments :=
          (b.members.map (fun e =>
            e.generate_member_instantiate ::
              (match e.padding with
               | some p => [p.generate_member_instantiate]
               | none => []))).flatten }

/-- `RustStructBuilder::build_fn_new`: the generated `new` function, with one
parameter per non-padding field (`generate_fn_new_param`) and a body that
assigns each real field from its parameter and zero-fills each padding
field. -/
def RustStructBuilder.build_fn_new (b : RustStructBuilder) : FnNew :=
  { params := b.members.map (fun e => (e.name_ident, e.rust_type))
    member_assignments :=
      (b.members.map (fun e =>
        FieldInit.fromVar e.name_ident ::
          (match e.padding with
           | some p => [p.generate_member_instantiate]
           | none => []))).flatten }

/-- `RustStructBuilder::build_derives`. -/
def RustStructBuilder.build_derives (b : RustStructBuilder) : List RustDerive :=
  [RustDerive.Debug, RustDerive.PartialEq, RustDerive.Clone]
    ++ (match b.options.serialization_strategy with
        | WgslTypeSerializeStrategy.Bytemuck => [RustDerive.Copy]
        | WgslTypeSerializeStrategy.Encase =>
          (if !b.has_rts_array then [RustDerive.Copy] else [])
            ++ [RustDerive.EncaseShaderType])
    ++ (if b.options.derive_serde then
          [RustDerive.SerdeSerialize, RustDerive.SerdeDeserialize]
        else [])

/-- The layout assertion block: one (field name, shader offset) pair per
member — rendered as `assert!(offset_of!(S, name) == offset)` — plus the
shader-computed total size, rendered as
`assert!(size_of::<S>() == struct_size)`. -/
structure AssertLayout where
  member_offset_asserts : List (String × Nat)
  struct_size : Nat
deriving DecidableEq

/-- The per-member offset-assertion list of `build_assert_layout`: each
member's name is unwrapped (`Except.error` models a panic on a missing
name) and paired with its shader-computed offset. -/
def assertMemberOffsets :
    List RustStructMemberEntry → Except String (List (String × Nat))
  | [] => Except.ok []
  | e :: rest =>
    match e.naga_member.name with
    | none => Except.error "called Option::unwrap on a None value"
    | some n =>
      match assertMemberOffsets rest with
      | Except.error msg => Except.error msg
      | Except.ok ys => Except.ok ((n, e.naga_member.offset) :: ys)

/-- `RustStructBuilder::build_assert_layout`: the offset list is always
computed (and can panic on a missing member name); the assertion block is
emitted only when the struct is directly shareable. -/
def RustStructBuilder.build_assert_layout (b : RustStructBuilder) :
    Except String (Option AssertLayout) :=
  match assertMemberOffsets b.members with
  | Except.error e => Except.error e
  | Except.ok asserts =>
    if b.is_directly_shareable then
      Except.ok (some
        { member_offset_asserts := asserts, struct_size := b.layout.size })
    else
      Except.ok none

/-- The `repr` attribute `build` emits on the primary struct. -/
inductive ReprPolicy
  | reprCAlign (alignment : Nat)
  | reprC
  | noRepr
deriving DecidableEq

/-- The structured content of `RustStructBuilder::build`: the
lowercase-name attribute, repr attribute, derive list, whether the
`bytemuck::Zeroable`/`bytemuck::Pod` impl pair is emitted, the layout
assertion block, the Init struct, and the constructor. -/
structure BuildOutput where
  allow_non_camel_case : Bool
  repr_policy : ReprPolicy
  derives : List RustDerive
  pod_impl : Bool
  assert_layout : Option AssertLayout
  init_struct : Option InitStruct
  fn_new : FnNew
deriving DecidableEq

/-- `RustStructBuilder::build` from `src/quote_gen/rust_struct_builder.rs`.
The `unwrap` on the struct name's first character and the unwraps inside
`build_assert_layout` are the panic points, modelled as `Except.error`. -/
def RustStructBuilder.build (b : RustStructBuilder) :
    Except String BuildOutput :=
  let is_host_shareable := b.is_host_sharable
  let has_rts_array := b.has_rts_array
  let should_generate_padding := is_host_shareable
    && (b.options.serialization_strategy == WgslTypeSerializeStrategy.Bytemuck)
  let derives := b.build_derives
  let alignment := b.layout.alignment
  let repr_c :=
    if !has_rts_array then
      if should_generate_padding then ReprPolicy.reprCAlign alignment
      else ReprPolicy.reprC
    else ReprPolicy.noRepr
  match b.name.data with
  | [] => Except.error "called Option::unwrap on a None value"
  | c :: _ =>
    let ignore_case := c.isLower
    match b.build_assert_layout with
    | Except.error e => Except.error e
    | Except.ok assert_layout =>
      Except.ok
        { allow_non_camel_case := ignore_case
          repr_policy := repr_c
          derives := derives
          pod_impl :=
            b.options.serialization_strategy == WgslTypeSerializeStrategy.Bytemuck
          assert_layout := assert_layout
          init_struct := b.build_init_struct
          fn_new := b.build_fn_new }

/-- Example: the fallback representation of `vec3<f32>`, `[f32; 3]`
(12 bytes, element alignment 4). -/
def rtVec3f : RustTypeInfo := { tokens := "[f32; 3]", size := some 12, alignment := 4 }

/-- Example: the representation of `f32` (4 bytes, alignment 4). -/
def rtF32 : RustTypeInfo := { tokens := "f32", size := some 4, alignment := 4 }

/-- Example: the fallback representation of `vec4<f32>`, `[f32; 4]`
(16 bytes, element alignment 4). -/
def rtVec4f : RustTypeInfo := { tokens := "[f32; 4]", size := some 16, alignment := 4 }

/-- Example: a runtime-sized array representation (no static size). -/
def rtRsaF32 : RustTypeInfo := { tokens := "f32", size := none, alignment := 4 }

/-- Example member `a: vec3<f32>` at offset 0 (spec scenario). -/
def mA : StructMember := { name := some "a", offset := 0, rust_type := rtVec3f }

/-- Example member `b: f32` at offset 16 (spec scenario). -/
def mB : StructMember := { name := some "b", offset := 16, rust_type := rtF32 }

/-- The spec's concrete scenario member list: `a: vec3<f32>` at 0 and
`b: f32` at 16, in a struct of total size 32. -/
def c2members : List StructMember := [mA, mB]

/-- The entry the fold derives for `mA`: padding of `0x10 - size_of([f32; 3])`. -/
def c2eA : RustStructMemberEntry :=
  { name_ident := "a", naga_member := mA, rust_type := "[f32; 3]", is_rsa := false
    padding := some { pad_name := "_pad_a", pad_span := 16, pad_size_of_ty := "[f32; 3]" } }

/-- The entry the fold derives for `mB`: padding of `0x10 - size_of(f32)`. -/
def c2eB : RustStructMemberEntry :=
  { name_ident := "b", naga_member := mB, rust_type := "f32", is_rsa := false
    padding := some { pad_name := "_pad_b", pad_span := 16, pad_size_of_ty := "f32" } }

/-- The derived entry list for the spec scenario. -/
def c2entries : List RustStructMemberEntry := [c2eA, c2eB]

/-- Example member: a runtime-sized array at position 0 (not last). -/
def c3m0 : StructMember := { name := some "data", offset := 0, rust_type := rtRsaF32 }

/-- Example member following the runtime-sized array. -/
def c3m1 : StructMember := { name := some "tail", offset := 16, rust_type := rtF32 }

/-- A malformed member list: the runtime-sized array is not last. -/
def c3members : List StructMember := [c3m0, c3m1]

/-- Example member `a: vec4<f32>` at offset 0. -/
def mV4 : StructMember := { name := some "a", offset := 0, rust_type := rtVec4f }

/-- The entry derived for `mV4` in a 16-byte struct: no padding needed. -/
def eB4 : RustStructMemberEntry :=
  { name_ident := "a", naga_member := mV4, rust_type := "[f32; 4]", is_rsa := false
    padding := none }

/-- A Bytemuck-strategy builder whose struct is NOT host-shareable. -/
def c1b : RustStructBuilder :=
  { name := "Foo", members := [eB4], is_host_sharable := false
    has_rts_array := false, layout := { size := 16, alignment := 16 }
    options := { serialization_strategy := WgslTypeSerializeStrategy.Bytemuck
                 derive_serde := false } }

/-- The build output for `c1b` (Pod/Zeroable emitted although not
host-shareable). -/
def c1bOut : BuildOutput :=
  { allow_non_camel_case := false
    repr_policy := ReprPolicy.reprC
    derives := [RustDerive.Debug, RustDerive.PartialEq, RustDerive.Clone, RustDerive.Copy]
    pod_impl := true
    assert_layout := none
    init_struct := none
    fn_new := { params := [("a", "[f32; 4]")]
                member_assignments := [FieldInit.fromVar "a"] } }

/-- A host-shareable Bytemuck builder with a single member and no padding
entry. -/
def c4b : RustStructBuilder :=
  { name := "Foo", members := [eB4], is_host_sharable := true
    has_rts_array := false, layout := { size := 16, alignment := 16 }
    options := { serialization_strategy := WgslTypeSerializeStrategy.Bytemuck
                 derive_serde := false } }

/-- The build output for `c4b` (alignment directive emitted although no
padding entry is present). -/
def c4bOut : BuildOutput :=
  { allow_non_camel_case := false
    repr_policy := ReprPolicy.reprCAlign 16
    derives := [RustDerive.Debug, RustDerive.PartialEq, RustDerive.Clone, RustDerive.Copy]
    pod_impl := true
    assert_layout := some { member_offset_asserts := [("a", 0)], struct_size := 16 }
    init_struct := none
    fn_new := { params := [("a", "[f32; 4]")]
                member_assignments := [FieldInit.fromVar "a"] } }

/-- A host-shareable builder under the Encase strategy. -/
def c5b : RustStructBuilder :=
  { name := "Foo", members := [eB4], is_host_sharable := true
    has_rts_array := false, layout := { size := 16, alignment := 16 }
    options := { serialization_strategy := WgslTypeSerializeStrategy.Encase
                 derive_serde := false } }

/-- A host-shareable Encase builder whose member list carries a padding
entry. -/
def c7b : RustStructBuilder :=
  { name := "Foo", members := [c2eA], is_host_sharable := true
    has_rts_array := false, layout := { size := 32, alignment := 16 }
    options := { serialization_strategy := WgslTypeSerializeStrategy.Encase
                 derive_serde := false } }

/-- A host-shareable Bytemuck builder whose member list carries a padding
entry (the Init form is generated for it). -/
def c7good : RustStructBuilder :=
  { name := "Foo", members := [c2eA], is_host_sharable := true
    has_rts_array := false, layout := { size := 32, alignment := 16 }
    options := { serialization_strategy := WgslTypeSerializeStrategy.Bytemuck
                 derive_serde := false } }

/-- The Init struct generated for `c7good`. -/
def c7goodInit : InitStruct :=
  { member_defs := [("a", "[f32; 3]")]
    mem_assignments :=
      [FieldInit.fromVar "a", FieldInit.zeroPad "_pad_a" 16 "[f32; 3]"] }

/-- Helper: the only alignments occurring in the catalog are 4, 8 and 16,
each a power of two. -/
theorem alignment_mem_pow_two {a : Nat} (h : a = 4 ∨ a = 8 ∨ a = 16) :
    ∃ k, a = 2 ^ k := by
  rcases h with h | h | h
  · exact ⟨2, by simp [h]⟩
  · exact ⟨3, by simp [h]⟩
  · exact ⟨4, by simp [h]⟩

/-- Every catalog entry is in the explicit enumeration. -/
theorem mem_catalog (t : WgslType) : t ∈ WgslType.catalog := by
  cases t <;> simp [WgslType.catalog]

/-- C6 counterexample: the Type Alignment Catalog does not have 29 entries
(it has 30: 12 vectors and 18 matrices). -/
theorem C6_catalog_not_29 : ¬ WgslType.catalog.length = 29 := by
  decide

/-- C6 (amended: the catalog has exactly 30 entries, not 29): the catalog is
a closed duplicate-free set of exactly 30 entries containing every
`WgslType`, and `alignment_and_size` is total over it with no error case
(it returns a concrete pair for every entry). -/
theorem C6_catalog_closed_total :
    WgslType.catalog.length = 30 ∧ WgslType.catalog.Nodup ∧
      (∀ t : WgslType, t ∈ WgslType.catalog) ∧
      (∀ t : WgslType, ∃ a s, WgslType.alignment_and_size t = (a, s)) := by
  refine ⟨by decide, by decide, mem_catalog, ?_⟩
  intro t
  exact ⟨(WgslType.alignment_and_size t).1, (WgslType.alignment_and_size t).2, rfl⟩

/-- C9: for every catalog entry the alignment is a power of two and the size
is strictly positive, and `is_vector`/`is_matrix` are mutually exclusive and
jointly exhaustive. -/
theorem C9_alignment_size_partition (t : WgslType) :
    (∃ k, (WgslType.alignment_and_size t).1 = 2 ^ k) ∧
      0 < (WgslType.alignment_and_size t).2 ∧
      (t.is_vector && t.is_matrix) = false ∧
      (t.is_vector || t.is_matrix) = true := by
  refine ⟨alignment_mem_pow_two ?_, ?_, ?_, ?_⟩
  · cases t <;> simp [WgslType.alignment_and_size]
  · cases t <;> decide
  · cases t <;> decide
  · cases t <;> decide

/-- Unfolding equation for `entriesFrom` on a cons cell. -/
theorem entriesFrom_cons (nm : List StructMember) (ls : Nat) (ids : Bool)
    (idx : Nat) (m : StructMember) (rest : List StructMember) :
    entriesFrom nm ls ids idx (m :: rest) =
      match memberEntry nm ls ids idx m with
      | Except.error e => Except.error e
      | Except.ok entry =>
        match entriesFrom nm ls ids (idx + 1) rest with
        | Except.error e => Except.error e
        | Except.ok es => Except.ok (entry :: es) := rfl

/-- The fold with `create_fold` from an arbitrary accumulator is the
reference recursion `entriesFrom`, with the produced entries appended. -/
theorem foldlM_create_fold (nm : List StructMember) (ls : Nat) (ids : Bool)
    (l : List StructMember) :
    ∀ (k : Nat) (acc : List RustStructMemberEntry),
      l.foldlM (NagaToRustStructState.create_fold nm ls ids)
          { index := k, members := acc } =
        match entriesFrom nm ls ids k l with
        | Except.error e => Except.error e
        | Except.ok es =>
          Except.ok { index := k + l.length, members := acc ++ es } := by
  induction l with
  | nil =>
    intro k acc
    show pure ({ index := k, members := acc } : NagaToRustStructState) =
      Except.ok (⟨k + ([] : List StructMember).length, acc ++ []⟩ : NagaToRustStructState)
    rw [List.append_nil]
    rfl
  | cons m rest ih =>
    intro k acc
    rw [List.foldlM_cons]
    cases h : memberEntry nm ls ids k m with
    | error e =>
      have hcf : NagaToRustStructState.create_fold nm ls ids
          { index := k, members := acc } m = Except.error e := by
        unfold NagaToRustStructState.create_fold
        rw [h]
      rw [hcf, entriesFrom_cons, h]
      rfl
    | ok entry =>
      have hcf : NagaToRustStructState.create_fold nm ls ids
          { index := k, members := acc } m =
          Except.ok { index := k + 1, members := acc ++ [entry] } := by
        unfold NagaToRustStructState.create_fold
        rw [h]
      rw [hcf, entriesFrom_cons, h]
      show rest.foldlM (NagaToRustStructState.create_fold nm ls ids)
          { index := k + 1, members := acc ++ [entry] } = _
      rw [ih (k + 1) (acc ++ [entry])]
      cases h2 : entriesFrom nm ls ids (k + 1) rest with
      | error e2 => rfl
      | ok es =>
        show Except.ok (⟨k + 1 + rest.length, acc ++ [entry] ++ es⟩ : NagaToRustStructState) =
          Except.ok (⟨k + (m :: rest).length, acc ++ entry :: es⟩ : NagaToRustStructState)
        rw [show k + 1 + rest.length = k + (m :: rest).length from by
              simp [List.length_cons]; omega,
            show acc ++ [entry] ++ es = acc ++ entry :: es from by simp]

/-- A successful `entriesFrom` run yields one entry per member, each the
`memberEntry` of its member at its position. -/
theorem entriesFrom_ok (nm : List StructMember) (ls : Nat) (ids : Bool) :
    ∀ (l : List StructMember) (idx : Nat) (es : List RustStructMemberEntry),
      entriesFrom nm ls ids idx l = Except.ok es →
        es.length = l.length ∧
        ∀ j m, l.get? j = some m →
          ∃ e, es.get? j = some e ∧
            memberEntry nm ls ids (idx + j) m = Except.ok e := by
  intro l
  induction l with
  | nil =>
    intro idx es h
    unfold entriesFrom at h
    injection h with h
    subst h
    exact ⟨rfl, fun j m hm => by simp at hm⟩
  | cons m0 rest ih =>
    intro idx es h
    unfold entriesFrom at h
    cases h1 : memberEntry nm ls ids idx m0 with
    | error e => rw [h1] at h; exact absurd h (by simp)
    | ok e0 =>
      rw [h1] at h
      cases h2 : entriesFrom nm ls ids (idx + 1) rest with
      | error er => rw [h2] at h; exact absurd h (by simp)
      | ok es1 =>
        rw [h2] at h
        injection h with h
        subst h
        obtain ⟨hlen, hpt⟩ := ih (idx + 1) es1 h2
        refine ⟨by simp [hlen], ?_⟩
        intro j m hm
        cases j with
        | zero =>
          rw [List.get?_cons_zero] at hm
          injection hm with hm
          subst hm
          exact ⟨e0, rfl, by simpa using h1⟩
        | succ j1 =>
          rw [List.get?_cons_succ] at hm
          obtain ⟨e, he, hme⟩ := hpt j1 m hm
          refine ⟨e, by simpa using he, ?_⟩
          have harith : idx + (j1 + 1) = idx + 1 + j1 := by omega
          rw [harith]
          exact hme

/-- `from_naga` is `entriesFrom` started at index 0. -/
theorem from_naga_eq (nm : List StructMember) (ls : Nat) (ids : Bool) :
    RustStructMemberEntry.from_naga nm ls ids = entriesFrom nm ls ids 0 nm := by
  unfold RustStructMemberEntry.from_naga
  rw [foldlM_create_fold nm ls ids nm 0 []]
  cases h : entriesFrom nm ls ids 0 nm with
  | error e => rfl
  | ok es => simp

/-- Characterization of a successful `memberEntry`: the member's name was
present, the entry mirrors the member, the runtime-sized-array precondition
held, and the padding is exactly the source computation. -/
theorem memberEntry_ok_spec (nm : List StructMember) (ls : Nat) (ids : Bool)
    (idx : Nat) (m : StructMember) (e : RustStructMemberEntry)
    (h : memberEntry nm ls ids idx m = Except.ok e) :
    m.name = some e.name_ident ∧
    e.naga_member = m ∧
    e.rust_type = m.rust_type.tokens ∧
    e.is_rsa = m.rust_type.size.isNone ∧
    ¬(m.rust_type.size.isNone = true ∧ idx ≠ nm.length - 1) ∧
    e.padding =
      (if m.rust_type.size.isNone || !ids then none
       else
         match m.rust_type.size_after_alignment with
         | some sa =>
           if requiredMemberSize nm ls idx m == sa then none
           else some ⟨"_pad_" ++ e.name_ident, requiredMemberSize nm ls idx m,
             m.rust_type.tokens⟩
         | none => some ⟨"_pad_" ++ e.name_ident, requiredMemberSize nm ls idx m,
             m.rust_type.tokens⟩) := by
  cases hn : m.name with
  | none =>
    unfold memberEntry at h
    rw [hn] at h
    exact absurd h (by simp)
  | some name =>
    unfold memberEntry at h
    rw [hn] at h
    dsimp only at h
    by_cases hc : (m.rust_type.size.isNone && (idx != nm.length - 1)) = true
    · rw [if_pos hc] at h
      exact absurd h (by simp)
    · rw [if_neg hc] at h
      injection h with h
      subst h
      refine ⟨rfl, rfl, rfl, rfl, ?_, ?_⟩
      · intro hcon
        exact hc (by simp [hcon.1, bne_iff_ne, hcon.2])
      · unfold requiredMemberSize
        rfl

/-- A successful offset-assertion computation yields one (name, offset) pair
per member, in order. -/
theorem assertMemberOffsets_ok :
    ∀ (es : List RustStructMemberEntry) (ys : List (String × Nat)),
      assertMemberOffsets es = Except.ok ys →
        ys.length = es.length ∧
        ∀ j e, es.get? j = some e →
          ∃ n, e.naga_member.name = some n ∧
            ys.get? j = some (n, e.naga_member.offset) := by
  intro es
  induction es with
  | nil =>
    intro ys h
    injection h with h
    subst h
    exact ⟨rfl, fun j e he => by simp at he⟩
  | cons e0 rest ih =>
    intro ys h
    unfold assertMemberOffsets at h
    cases hn : e0.naga_member.name with
    | none => rw [hn] at h; exact absurd h (by simp)
    | some n0 =>
      rw [hn] at h
      cases h2 : assertMemberOffsets rest with
      | error er => rw [h2] at h; exact absurd h (by simp)
      | ok ys1 =>
        rw [h2] at h
        injection h with h
        subst h
        obtain ⟨hlen, hpt⟩ := ih ys1 h2
        refine ⟨by simp [hlen], ?_⟩
        intro j e he
        cases j with
        | zero =>
          rw [List.get?_cons_zero] at he
          injection he with he
          subst he
          exact ⟨n0, hn, rfl⟩
        | succ j1 =>
          rw [List.get?_cons_succ] at he
          obtain ⟨n, hn1, hy⟩ := hpt j1 e he
          exact ⟨n, hn1, by simpa using hy⟩

/-- Characterization of a successful `build_assert_layout`: the block is
present exactly when the struct is directly shareable, and when present it
has one offset assertion per member plus the struct's total size. -/
theorem build_assert_layout_spec (b : RustStructBuilder)
    (res : Option AssertLayout)
    (h : b.build_assert_layout = Except.ok res) :
    res.isSome = b.is_directly_shareable ∧
    ∀ al, res = some al →
      al.struct_size = b.layout.size ∧
      al.member_offset_asserts.length = b.members.length ∧
      ∀ j e, b.members.get? j = some e →
        ∃ n, e.naga_member.name = some n ∧
          al.member_offset_asserts.get? j = some (n, e.naga_member.offset) := by
  unfold RustStructBuilder.build_assert_layout at h
  cases h1 : assertMemberOffsets b.members with
  | error er => rw [h1] at h; exact absurd h (by simp)
  | ok ys =>
    rw [h1] at h
    dsimp only at h
    obtain ⟨hlen, hpt⟩ := assertMemberOffsets_ok b.members ys h1
    by_cases hd : b.is_directly_shareable = true
    · rw [if_pos hd] at h
      injection h with h
      subst h
      refine ⟨by simp [hd], ?_⟩
      intro al hal
      injection hal with hal
      subst hal
      exact ⟨rfl, hlen, hpt⟩
    · rw [if_neg hd] at h
      injection h with h
      subst h
      refine ⟨by simp [Bool.not_eq_true] at hd; simp [hd], ?_⟩
      intro al hal
      exact absurd hal (by simp)

/-- Characterization of a successful `build`: the struct name is non-empty,
and each output component is the corresponding source computation. -/
theorem build_ok_spec (b : RustStructBuilder) (out : BuildOutput)
    (h : b.build = Except.ok out) :
    b.name ≠ "" ∧
    out.pod_impl =
      (b.options.serialization_strategy == WgslTypeSerializeStrategy.Bytemuck) ∧
    out.repr_policy =
      (if b.has_rts_array then ReprPolicy.noRepr
       else if b.is_host_sharable &&
           (b.options.serialization_strategy == WgslTypeSerializeStrategy.Bytemuck)
         then ReprPolicy.reprCAlign b.layout.alignment
       else ReprPolicy.reprC) ∧
    out.derives = b.build_derives ∧
    out.init_struct = b.build_init_struct ∧
    b.build_assert_layout = Except.ok out.assert_layout ∧
    out.fn_new = b.build_fn_new := by
  unfold RustStructBuilder.build at h
  cases hd : b.name.data with
  | nil => rw [hd] at h; exact absurd h (by simp)
  | cons c cs =>
    rw [hd] at h
    dsimp only at h
    cases ha : b.build_assert_layout with
    | error er => rw [ha] at h; exact absurd h (by simp)
    | ok al =>
      rw [ha] at h
      injection h with h
      subst h
      refine ⟨?_, rfl, ?_, rfl, rfl, rfl, rfl⟩
      · intro hempty
        rw [hempty] at hd
        exact absurd hd (by simp [String.data])
      · by_cases hr : b.has_rts_array = true
        · simp [hr]
        · simp only [Bool.not_eq_true] at hr
          simp [hr]

/-- C1 counterexample: a struct built with the Bytemuck strategy but with
is_host_sharable = false still gets the Pod/Zeroable pair, contrary to the
claim. -/
theorem C1_counterexample :
    (RustStructBuilder.build c1b).map BuildOutput.pod_impl = Except.ok true ∧
      c1b.options.serialization_strategy = WgslTypeSerializeStrategy.Bytemuck ∧
      c1b.is_host_sharable = false :=
  ⟨rfl, rfl, rfl⟩

/-- C1 (amended: the Pod/Zeroable pair is granted exactly when the
serialization strategy is Bytemuck, regardless of host-shareability): for
every successfully built struct the pair is emitted iff the strategy is
Bytemuck. -/
theorem C1_pod_iff_bytemuck (b : RustStructBuilder) (out : BuildOutput)
    (h : b.build = Except.ok out) :
    out.pod_impl = true ↔
      b.options.serialization_strategy = WgslTypeSerializeStrategy.Bytemuck := by
  have h2 := (build_ok_spec b out h).2.1
  rw [h2]
  simp

/-- C1 witness: the amended theorem applied to the concrete builder `c1b`. -/
theorem C1_witness :
    RustStructBuilder.build c1b = Except.ok c1bOut ∧
      (c1bOut.pod_impl = true ↔
        c1b.options.serialization_strategy = WgslTypeSerializeStrategy.Bytemuck) :=
  ⟨rfl, C1_pod_iff_bytemuck c1b c1bOut rfl⟩

/-- C2: in a successful member-entry fold, a member processed with
is_directly_sharable = true and a fixed-size representation gets a padding
entry iff its size after alignment differs from the gap to the next member
(or struct end), the padding's size expression is exactly that gap minus
the host type's target-side size, and no padding is attached when
is_directly_sharable = false or the member is the runtime-sized array. -/
theorem C2_padding_iff (nm : List StructMember) (ls : Nat) (ids : Bool)
    (entries : List RustStructMemberEntry)
    (hok : RustStructMemberEntry.from_naga nm ls ids = Except.ok entries)
    (i : Nat) (m : StructMember) (e : RustStructMemberEntry)
    (hm : nm.get? i = some m) (he : entries.get? i = some e) :
    (ids = true → ∀ s, m.rust_type.size = some s →
        ((e.padding.isSome = true ↔
            m.rust_type.size_after_alignment ≠
              some (requiredMemberSize nm ls i m)) ∧
          ∀ p, e.padding = some p →
            p.pad_span = requiredMemberSize nm ls i m ∧
              p.pad_size_of_ty = m.rust_type.tokens))
      ∧ ((ids = false ∨ m.rust_type.size = none) → e.padding = none) := by
  rw [from_naga_eq] at hok
  obtain ⟨hlen, hpt⟩ := entriesFrom_ok nm ls ids nm 0 entries hok
  obtain ⟨e1, he1, hme⟩ := hpt i m hm
  rw [he] at he1
  injection he1 with he1
  subst he1
  rw [Nat.zero_add] at hme
  obtain ⟨_, _, _, _, _, hpad⟩ := memberEntry_ok_spec nm ls ids i m e hme
  constructor
  · intro hids s hs
    subst hids
    rw [hs] at hpad
    simp only [Option.isNone_some, Bool.not_true, Bool.or_false,
      Bool.false_eq_true, if_false] at hpad
    have hsa : m.rust_type.size_after_alignment =
        some ((s + m.rust_type.alignment - 1) / m.rust_type.alignment *
          m.rust_type.alignment) := by
      simp [RustTypeInfo.size_after_alignment, hs]
    rw [hsa] at hpad
    dsimp only at hpad
    by_cases hreq : (requiredMemberSize nm ls i m ==
        (s + m.rust_type.alignment - 1) / m.rust_type.alignment *
          m.rust_type.alignment) = true
    · rw [if_pos hreq] at hpad
      have heq : requiredMemberSize nm ls i m =
          (s + m.rust_type.alignment - 1) / m.rust_type.alignment *
            m.rust_type.alignment := by simpa using hreq
      constructor
      · rw [hpad, hsa, heq]
        simp
      · intro p hp
        rw [hpad] at hp
        exact absurd hp (by simp)
    · rw [if_neg hreq] at hpad
      have hne : requiredMemberSize nm ls i m ≠
          (s + m.rust_type.alignment - 1) / m.rust_type.alignment *
            m.rust_type.alignment := by
        intro hx
        exact hreq (by simp [hx])
      constructor
      · rw [hpad, hsa]
        simp
        exact fun hx => hne hx.symm
      · intro p hp
        rw [hpad] at hp
        injection hp with hp
        subst hp
        exact ⟨rfl, rfl⟩
  · intro hcase
    rcases hcase with hids | hnone
    · subst hids
      simp only [Bool.not_false, Bool.or_true, if_true] at hpad
      exact hpad
    · rw [hnone] at hpad
      simp only [Option.isNone_none, Bool.true_or, if_true] at hpad
      exact hpad

/-- C2 witness: the theorem applied to the spec's concrete scenario
(`a: vec3<f32>` at 0, `b: f32` at 16, total size 32, directly shareable):
member `a` gets a padding entry of span 0x10 over `[f32; 3]`. -/
theorem C2_witness :
    RustStructMemberEntry.from_naga c2members 32 true = Except.ok c2entries ∧
      c2members.get? 0 = some mA ∧
      c2entries.get? 0 = some c2eA ∧
      mA.rust_type.size = some 12 ∧
      (c2eA.padding.isSome = true ↔
        mA.rust_type.size_after_alignment ≠
          some (requiredMemberSize c2members 32 0 mA)) :=
  ⟨rfl, rfl, rfl, rfl,
    ((C2_padding_iff c2members 32 true c2entries rfl 0 mA c2eA rfl rfl).1
      rfl 12 rfl).1⟩

/-- C3: a runtime-sized member anywhere but the last position makes the
member-entry derivation abort (no entry list is ever produced). -/
theorem C3_rsa_not_last_aborts (nm : List StructMember) (ls : Nat)
    (ids : Bool) (i : Nat) (m : StructMember)
    (hm : nm.get? i = some m) (hrsa : m.rust_type.size = none)
    (hnl : i ≠ nm.length - 1) :
    ∀ entries, RustStructMemberEntry.from_naga nm ls ids ≠ Except.ok entries := by
  intro entries hok
  rw [from_naga_eq] at hok
  obtain ⟨_, hpt⟩ := entriesFrom_ok nm ls ids nm 0 entries hok
  obtain ⟨e, _, hme⟩ := hpt i m hm
  rw [Nat.zero_add] at hme
  obtain ⟨_, _, _, _, hpre, _⟩ := memberEntry_ok_spec nm ls ids i m e hme
  exact hpre ⟨by rw [hrsa]; rfl, hnl⟩

/-- C3 witness: the theorem applied to a concrete list whose first member is
a runtime-sized array followed by another member. -/
theorem C3_witness :
    c3members.get? 0 = some c3m0 ∧ c3m0.rust_type.size = none ∧
      (0 : Nat) ≠ c3members.length - 1 ∧
      RustStructMemberEntry.from_naga c3members 32 true ≠ Except.ok [] :=
  ⟨rfl, rfl, by decide,
    C3_rsa_not_last_aborts c3members 32 true 0 c3m0 rfl rfl (by decide) []⟩

/-- C4 counterexample: a host-shareable Bytemuck struct with no padding
entry present still gets the explicit alignment directive, contrary to the
claim's "no alignment override when no padding entry is present". -/
theorem C4_counterexample :
    (RustStructBuilder.build c4b).map BuildOutput.repr_policy =
        Except.ok (ReprPolicy.reprCAlign 16) ∧
      c4b.is_host_sharable = true ∧
      c4b.uses_padding = false ∧
      c4b.has_rts_array = false ∧
      ReprPolicy.reprCAlign 16 ≠ ReprPolicy.reprC :=
  ⟨rfl, rfl, rfl, rfl, by decide⟩

/-- C4 (amended: the alignment directive is driven by `is_host_sharable`
together with the Bytemuck strategy — the condition under which padding
generation is enabled — not by the actual presence of a padding entry; a
runtime-sized trailing array suppresses any repr): full characterization of
the emitted representation policy. -/
theorem C4_repr_policy (b : RustStructBuilder) (out : BuildOutput)
    (h : b.build = Except.ok out) :
    out.repr_policy =
      (if b.has_rts_array then ReprPolicy.noRepr
       else if b.is_host_sharable &&
           (b.options.serialization_strategy == WgslTypeSerializeStrategy.Bytemuck)
         then ReprPolicy.reprCAlign b.layout.alignment
       else ReprPolicy.reprC) :=
  (build_ok_spec b out h).2.2.1

/-- C4 witness: the amended theorem applied to the concrete builder `c4b`. -/
theorem C4_witness :
    RustStructBuilder.build c4b = Except.ok c4bOut ∧
      c4bOut.repr_policy = ReprPolicy.reprCAlign 16 :=
  ⟨rfl, (C4_repr_policy c4b c4bOut rfl).trans rfl⟩

/-- C5 counterexample: a host-shareable struct under the Encase strategy
gets no layout assertions at all, contrary to the claim that every
host-shareable struct gets them. -/
theorem C5_counterexample :
    (RustStructBuilder.build c5b).map BuildOutput.assert_layout =
        Except.ok none ∧
      c5b.is_host_sharable = true ∧
      c5b.members ≠ [] :=
  ⟨rfl, rfl, by decide⟩

/-- C5 (amended: the layout assertions are emitted exactly when the struct
is directly shareable, i.e. host-shareable AND under the Bytemuck
strategy): when emitted there is one offset assertion per member, pairing
the member's name with its shader-computed offset, plus exactly the
shader-computed total size. -/
theorem C5_assertions_iff_directly_shareable (b : RustStructBuilder)
    (out : BuildOutput) (h : b.build = Except.ok out) :
    out.assert_layout.isSome = b.is_directly_shareable ∧
    ∀ al, out.assert_layout = some al →
      al.member_offset_asserts.length = b.members.length ∧
      (∀ j e, b.members.get? j = some e →
        ∃ n, e.naga_member.name = some n ∧
          al.member_offset_asserts.get? j = some (n, e.naga_member.offset)) ∧
      al.struct_size = b.layout.size := by
  have hal := (build_ok_spec b out h).2.2.2.2.2.1
  obtain ⟨h1, h2⟩ := build_assert_layout_spec b out.assert_layout hal
  refine ⟨h1, ?_⟩
  intro al halp
  obtain ⟨ha, hb, hc⟩ := h2 al halp
  exact ⟨hb, hc, ha⟩

/-- C5 witness: the amended theorem applied to the concrete builder `c4b`. -/
theorem C5_witness :
    RustStructBuilder.build c4b = Except.ok c4bOut ∧
      c4bOut.assert_layout.isSome = c4b.is_directly_shareable :=
  ⟨rfl, (C5_assertions_iff_directly_shareable c4b c4bOut rfl).1⟩

/-- C7 counterexample: a host-shareable struct whose member list carries a
padding entry gets no Init form under the Encase strategy, contrary to the
claim that the Init form exists exactly when the struct is host-shareable
and has a padding entry. -/
theorem C7_counterexample :
    RustStructBuilder.build_init_struct c7b = none ∧
      c7b.is_host_sharable = true ∧
      c7b.uses_padding = true :=
  ⟨rfl, rfl, rfl⟩

/-- C7 (amended: the Init form is generated exactly when the struct is
directly shareable — host-shareable AND under the Bytemuck strategy — and
contains at least one padding entry): when it exists, converting an Init
instance to the primary struct assigns, field by field, exactly what the
constructor assigns for the same real-field values, with every padding
field zero-filled. -/
theorem C7_init_conversion (b : RustStructBuilder) :
    (b.build_init_struct).isSome = (b.is_directly_shareable && b.uses_padding) ∧
    ∀ init, b.build_init_struct = some init →
      ∀ (size_of : String → Nat) (env : String → Int),
        init.mem_assignments.map (FieldInit.eval size_of env) =
          (b.build_fn_new).member_assignments.map (FieldInit.eval size_of env) ∧
        (∀ pn span ty, FieldInit.zeroPad pn span ty ∈ init.mem_assignments →
          FieldInit.eval size_of env (FieldInit.zeroPad pn span ty) =
            (pn, FieldValue.bytes (List.replicate (span - size_of ty) 0))) := by
  constructor
  · unfold RustStructBuilder.build_init_struct
    by_cases h1 : b.is_directly_shareable = true <;>
      by_cases h2 : b.uses_padding = true <;>
        simp [h1, h2]
  · intro init hinit size_of env
    unfold RustStructBuilder.build_init_struct at hinit
    by_cases hcond : (!b.is_directly_shareable || !b.uses_padding) = true
    · rw [if_pos hcond] at hinit
      exact absurd hinit (by simp)
    · rw [if_neg hcond] at hinit
      injection hinit with hinit
      subst hinit
      exact ⟨rfl, fun pn span ty _ => rfl⟩

/-- C7 witness: the amended theorem applied to the concrete builder
`c7good` (with a concrete `size_of` and real-field environment). -/
theorem C7_witness :
    RustStructBuilder.build_init_struct c7good = some c7goodInit ∧
      c7goodInit.mem_assignments.map (FieldInit.eval (fun _ => 4) (fun _ => 1)) =
        (RustStructBuilder.build_fn_new c7good).member_assignments.map
          (FieldInit.eval (fun _ => 4) (fun _ => 1)) :=
  ⟨rfl,
    ((C7_init_conversion c7good).2 c7goodInit rfl (fun _ => 4) (fun _ => 1)).1⟩

/-- C8: every built struct's derive set contains equality and clone; it
contains copy except exactly when the struct has a runtime-sized array
under the Encase strategy; and it contains the encase ShaderType capability
exactly when the Encase strategy is active. -/
theorem C8_derive_set (b : RustStructBuilder) :
    RustDerive.PartialEq ∈ b.build_derives ∧
    RustDerive.Clone ∈ b.build_derives ∧
    (RustDerive.Copy ∈ b.build_derives ↔
      ¬(b.has_rts_array = true ∧
        b.options.serialization_strategy = WgslTypeSerializeStrategy.Encase)) ∧
    (RustDerive.EncaseShaderType ∈ b.build_derives ↔
      b.options.serialization_strategy = WgslTypeSerializeStrategy.Encase) := by
  obtain ⟨name, members, hs, rts, layout, strat, serde⟩ := b
  cases strat <;> cases rts <;> cases serde <;>
    simp [RustStructBuilder.build_derives]

/-- C10: the implicit name preconditions — a fold over members with any
absent member name aborts before producing an entry list, and a build with
an empty (demangled) struct name aborts; hence every successful build has a
non-empty struct name and a name for every member. -/
theorem C10_name_preconditions :
    (∀ (nm : List StructMember) (ls : Nat) (ids : Bool)
        (entries : List RustStructMemberEntry),
        RustStructMemberEntry.from_naga nm ls ids = Except.ok entries →
          ∀ m ∈ nm, m.name.isSome = true) ∧
    (∀ (b : RustStructBuilder) (out : BuildOutput),
        b.build = Except.ok out → b.name ≠ "") := by
  constructor
  · intro nm ls ids entries hok m hmem
    rw [from_naga_eq] at hok
    obtain ⟨_, hpt⟩ := entriesFrom_ok nm ls ids nm 0 entries hok
    obtain ⟨i, hi⟩ := List.mem_iff_get?.mp hmem
    obtain ⟨e, _, hme⟩ := hpt i m hi
    obtain ⟨hname, _⟩ := memberEntry_ok_spec nm ls ids (0 + i) m e hme
    rw [hname]
    rfl
  · intro b out h
    exact (build_ok_spec b out h).1

/-- C10 witness: the theorem applied to a concrete successful fold and a
concrete successful build. -/
theorem C10_witness :
    mV4.name.isSome = true ∧ c4b.name ≠ "" :=
  ⟨C10_name_preconditions.1 [mV4] 16 true [eB4] rfl mV4 (by simp),
   C10_name_preconditions.2 c4b c4bOut rfl⟩
